import Mathlib

/-!
Verification of the core asynchronous state-cache engine of the repository
(a TanStack-Query-style library).  The repository ships the engine's test
suites; the engine itself (Query, Retryer, Mutation, QueryClient) is modelled
here from the specification, faithful to its words, and the concrete
scenarios of the test suites are replayed against the model.
-/

namespace ReactQuery

/-- Modelled from the spec: query `status ∈ \x7bpending, success, error\x7d`. -/
inductive QueryStatus where
  | pending
  | success
  | error
deriving Repr, DecidableEq

/-- Modelled from the spec: query `fetchStatus ∈ \x7bidle, fetching, paused\x7d`. -/
inductive FetchStatus where
  | idle
  | fetching
  | paused
deriving Repr, DecidableEq

/-- Modelled from the spec (§3 Query entry): the per-entry state record
`\x7b data, dataUpdateCount, dataUpdatedAt, error, errorUpdateCount,
errorUpdatedAt, fetchFailureCount, fetchFailureReason, isInvalidated,
status, fetchStatus \x7d`.  Time stamps are abstract naturals. -/
structure QueryState (α ε : Type) where
  data : Option α
  dataUpdateCount : Nat
  dataUpdatedAt : Nat
  error : Option ε
  errorUpdateCount : Nat
  errorUpdatedAt : Nat
  fetchFailureCount : Nat
  fetchFailureReason : Option ε
  isInvalidated : Bool
  status : QueryStatus
  fetchStatus : FetchStatus
deriving Repr, DecidableEq

/-- Modelled from the spec: the initial state of a freshly built Query with
no initialData: `status = pending` (invariant 2), `fetchStatus = idle`. -/
def initialQueryState {α ε : Type} : QueryState α ε where
  data := none
  dataUpdateCount := 0
  dataUpdatedAt := 0
  error := none
  errorUpdateCount := 0
  errorUpdatedAt := 0
  fetchFailureCount := 0
  fetchFailureReason := none
  isInvalidated := false
  status := .pending
  fetchStatus := .idle

/-- Modelled from the spec (§4.2): the Query state machine's actions,
"reducer on actions: continue | failed | fetch | success | error |
invalidate | setState | pause/continue".  The `success` action carries the
`manual` flag of `setData(updater, \x7bupdatedAt?, manual?\x7d)`. -/
inductive QueryAction (α ε : Type) where
  | fetch
  | failed (failureCount : Nat) (error : ε)
  | success (data : α) (updatedAt : Nat) (manual : Bool)
  | error (error : ε) (at_ : Nat)
  | invalidate
  | pause
  | cont
deriving Repr, DecidableEq

/-- Modelled from the spec: the Query reducer.
Each case follows the specified semantics: a `fetch` moves `fetchStatus`
to `fetching` and resets the failure counters for the new fetch; `failed`
records the retryer's `onFail(failureCount, error)` in
`fetchFailureCount` / `fetchFailureReason`; `success` stores the data,
bumps `dataUpdateCount`, records `dataUpdatedAt` (invariant 4), clears
`isInvalidated` (invariant 6) and, for a non-manual (fetch-driven) success,
returns `fetchStatus` to `idle` and clears the failure counters (§8
scenario 1); a manual success — `setQueryData` — "does not change
`fetchStatus`" (§4.6); `error` records the terminal error of the fetch,
counts the final failed attempt and ends the fetch with `status = error`;
`invalidate` marks the entry; `pause`/`cont` toggle the retryer's
pause gate on `fetchStatus`. -/
def applyAction {α ε : Type} (s : QueryState α ε) : QueryAction α ε → QueryState α ε
  | .fetch =>
      { s with
        fetchStatus := .fetching
        fetchFailureCount := 0
        fetchFailureReason := none
        status := if s.data.isNone then .pending else s.status
        error := if s.data.isNone then none else s.error }
  | .failed c e =>
      { s with fetchFailureCount := c, fetchFailureReason := some e }
  | .success d at_ manual =>
      let s' := { s with
        data := some d
        dataUpdateCount := s.dataUpdateCount + 1
        dataUpdatedAt := at_
        error := none
        isInvalidated := false
        status := .success }
      if manual then s'
      else { s' with
        fetchStatus := .idle
        fetchFailureCount := 0
        fetchFailureReason := none }
  | .error e at_ =>
      { s with
        error := some e
        errorUpdateCount := s.errorUpdateCount + 1
        errorUpdatedAt := at_
        fetchFailureCount := s.fetchFailureCount + 1
        fetchFailureReason := some e
        fetchStatus := .idle
        status := .error }
  | .invalidate => { s with isInvalidated := true }
  | .pause => { s with fetchStatus := .paused }
  | .cont => { s with fetchStatus := .fetching }

/-- Modelled from the spec (§4.1): the `retry` policy is
"bool | number | (count,err)=>bool". -/
inductive RetryPolicy (ε : Type) where
  | always
  | never
  | num (n : Nat)
  | pred (f : Nat → ε → Bool)

/-- Modelled from the spec (§4.1): "Decide retry by evaluating `retry`".
The count handed to the decision is the number of failures recorded
before the attempt that just failed, so a numeric policy `num n` allows
`n` retries after the first attempt — "`retry = n` performs at most `n+1`
attempts" (§8). -/
def evalRetry {ε : Type} : RetryPolicy ε → Nat → ε → Bool
  | .always, _, _ => true
  | .never, _, _ => false
  | .num n, count, _ => count < n
  | .pred f, count, e => f count e

/-- Outcome of one run of the Retryer: how many times the task function
was attempted, the `onFail(failureCount, error)` events in order, and the
settled result. -/
structure RetryOutcome (α ε : Type) where
  attempts : Nat
  failEvents : List (Nat × ε)
  result : Except ε α
deriving Repr

/-- Modelled from the spec (§4.1 Algorithm): "attempt `fn()`; on reject,
increment failure count, call `onFail`.  Decide retry by evaluating
`retry` … after exhausting retries, the promise rejects with the last
error".  The task function is given the attempt index (every earlier
attempt failed, so the index equals the current failure count); `fuel`
bounds the number of retries so the recursion terminates even for the
`always` policy. -/
def retryerGo {α ε : Type} (fn : Nat → Except ε α) (p : RetryPolicy ε) :
    Nat → Nat → List (Nat × ε) → RetryOutcome α ε
  | fuel, c, evs =>
      match fn c with
      | .ok a => ⟨c + 1, evs.reverse, .ok a⟩
      | .error e =>
          if evalRetry p c e then
            match fuel with
            | 0 => ⟨c + 1, evs.reverse, .error e⟩
            | fuel' + 1 => retryerGo fn p fuel' (c + 1) ((c + 1, e) :: evs)
          else ⟨c + 1, evs.reverse, .error e⟩

/-- Modelled from the spec (§4.1): run the Retryer from a fresh state
(failure count 0, no events yet). -/
def retryerRun {α ε : Type} (fn : Nat → Except ε α) (p : RetryPolicy ε)
    (fuel : Nat) : RetryOutcome α ε :=
  retryerGo fn p fuel 0 []

/-- Modelled from the spec (§4.2 / §4.1): a Query fetch dispatches `fetch`,
then one `failed` action per retryer `onFail` event, then the terminal
`success` or `error` action. -/
def fetchActions {α ε : Type} (out : RetryOutcome α ε) (now : Nat) :
    List (QueryAction α ε) :=
  QueryAction.fetch ::
    (out.failEvents.map fun fe => QueryAction.failed fe.1 fe.2) ++
      [match out.result with
       | .ok a => QueryAction.success a now false
       | .error e => QueryAction.error e now]

/-- The sequence of states a fetch drives a Query through (the observer
sees one derived result per state). -/
def fetchStates {α ε : Type} (s : QueryState α ε) (out : RetryOutcome α ε)
    (now : Nat) : List (QueryState α ε) :=
  (fetchActions out now).scanl applyAction s

/-- The state in which the fetch leaves the Query. -/
def fetchFinal {α ε : Type} (s : QueryState α ε) (out : RetryOutcome α ε)
    (now : Nat) : QueryState α ε :=
  (fetchActions out now).foldl applyAction s

/-- The Query state after the first `k` failed attempts of a fetch whose
attempts reject with `errs 0, errs 1, …` (one `failed` action per
attempt). -/
def applyFails {α ε : Type} (errs : Nat → ε) (s : QueryState α ε) (k : Nat) :
    QueryState α ε :=
  ((List.range k).map fun i => QueryAction.failed (i + 1) (errs i)).foldl
    applyAction s

lemma applyFails_zero {α ε : Type} (errs : Nat → ε) (s : QueryState α ε) :
    applyFails errs s 0 = s := rfl

lemma applyFails_succ {α ε : Type} (errs : Nat → ε) (s : QueryState α ε)
    (k : Nat) :
    applyFails errs s (k + 1) =
      applyAction (applyFails errs s k) (.failed (k + 1) (errs k)) := by
  unfold applyFails
  rw [List.range_succ, List.map_append, List.foldl_append]
  rfl

lemma applyFails_spec {α ε : Type} (errs : Nat → ε) (s : QueryState α ε) :
    ∀ k, 0 < k →
      applyFails errs s k =
        { s with fetchFailureCount := k,
                 fetchFailureReason := some (errs (k - 1)) } := by
  intro k
  induction k with
  | zero => omega
  | succ k ih =>
      intro _
      rw [applyFails_succ]
      rcases Nat.eq_zero_or_pos k with hk | hk
      · subst hk
        rw [applyFails_zero]
        rfl
      · rw [ih hk]
        rfl

/-- A task function that rejects on every attempt, retried under the
numeric policy `num n`, makes exactly `n + 1` attempts, emits one
`onFail (i + 1, errs i)` event for each retried attempt, and settles with
the last attempt's error. -/
lemma retryerGo_allFail {α ε : Type} (errs : Nat → ε) (n : Nat) :
    ∀ fuel c evs, n - c ≤ fuel → c ≤ n →
      retryerGo (fun i => (Except.error (errs i) : Except ε α))
          (.num n) fuel c evs =
        ⟨n + 1,
         evs.reverse ++ (List.range' c (n - c)).map (fun i => (i + 1, errs i)),
         .error (errs n)⟩ := by
  intro fuel
  induction fuel with
  | zero =>
      intro c evs h1 h2
      have hc : c = n := by omega
      subst hc
      simp [retryerGo, evalRetry]
  | succ f ih =>
      intro c evs h1 h2
      rcases Nat.lt_or_ge c n with hlt | hge
      · have hnc : n - c = (n - (c + 1)) + 1 := by omega
        rw [retryerGo]
        simp only [evalRetry, hlt, if_pos]
        rw [ih (c + 1) ((c + 1, errs c) :: evs) (by omega) (by omega)]
        rw [hnc, List.range'_succ, List.map_cons, List.reverse_cons]
        simp
      · have hc : c = n := by omega
        subst hc
        simp [retryerGo, evalRetry]

lemma retryerRun_allFail {α ε : Type} (errs : Nat → ε) (n : Nat) :
    retryerRun (fun i => (Except.error (errs i) : Except ε α))
        (.num n) n =
      ⟨n + 1, (List.range n).map (fun i => (i + 1, errs i)),
       .error (errs n)⟩ := by
  rw [retryerRun, retryerGo_allFail errs n n 0 [] (by omega) (by omega)]
  simp [List.range_eq_range']

lemma fetchFinal_decomp {α ε : Type} (s : QueryState α ε)
    (out : RetryOutcome α ε) (now : Nat) :
    fetchFinal s out now =
      applyAction
        ((out.failEvents.map (fun fe => QueryAction.failed fe.1 fe.2)).foldl
          applyAction (applyAction s .fetch))
        (match out.result with
         | .ok a => .success a now false
         | .error e => .error e now) := by
  unfold fetchFinal fetchActions
  simp only [List.foldl_cons, List.foldl_append, List.foldl_nil]

lemma fetchFinal_allFail {ε : Type} (errs : Nat → ε) (n now : Nat) :
    fetchFinal initialQueryState
        (retryerRun (fun i => (Except.error (errs i) : Except ε Unit))
          (.num n) n) now =
      { initialQueryState (α := Unit) (ε := ε) with
        status := .error
        error := some (errs n)
        errorUpdateCount := 1
        errorUpdatedAt := now
        fetchFailureCount := n + 1
        fetchFailureReason := some (errs n) } := by
  rw [retryerRun_allFail errs n, fetchFinal_decomp]
  have hfold :
      (((List.range n).map (fun i => (i + 1, errs i))).map
          (fun fe => QueryAction.failed fe.1 fe.2)).foldl applyAction
        (applyAction (initialQueryState (α := Unit)) .fetch) =
      applyFails errs (applyAction initialQueryState .fetch) n := by
    unfold applyFails
    rw [List.map_map]
    rfl
  rw [hfold]
  rcases Nat.eq_zero_or_pos n with hn | hn
  · subst hn
    rfl
  · rw [applyFails_spec errs _ n hn]
    rfl

/-- C1: a query whose query function rejects on every attempt, configured
with retry = n, makes at most n + 1 attempts of the query function
(exactly one when retry = 0); the failure count visible to the observer
increments by one per failed attempt with failureReason set to that
attempt's error, and after retries are exhausted the query has
status error with error equal to the last attempt's error. -/
theorem C1_unsuccessful_query_retry (ε : Type) (errs : Nat → ε)
    (n now : Nat) :
    (retryerRun (fun i => (Except.error (errs i) : Except ε Unit))
        (.num n) n).attempts = n + 1
    ∧ (retryerRun (fun i => (Except.error (errs i) : Except ε Unit))
        (.num 0) 0).attempts = 1
    ∧ (retryerRun (fun i => (Except.error (errs i) : Except ε Unit))
        (.num n) n).failEvents =
        (List.range n).map (fun i => (i + 1, errs i))
    ∧ (∀ k, 0 < k → k ≤ n →
        applyFails errs (applyAction initialQueryState .fetch) k =
          { applyAction (initialQueryState (α := Unit) (ε := ε)) .fetch with
            fetchFailureCount := k
            fetchFailureReason := some (errs (k - 1)) })
    ∧ fetchFinal initialQueryState
        (retryerRun (fun i => (Except.error (errs i) : Except ε Unit))
          (.num n) n) now =
        { initialQueryState (α := Unit) (ε := ε) with
          status := .error
          error := some (errs n)
          errorUpdateCount := 1
          errorUpdatedAt := now
          fetchFailureCount := n + 1
          fetchFailureReason := some (errs n) } := by
  refine ⟨?_, ?_, ?_, ?_, ?_⟩
  · rw [retryerRun_allFail]
  · rw [retryerRun_allFail errs 0]
  · rw [retryerRun_allFail]
  · intro k hk _
    exact applyFails_spec errs _ k hk
  · exact fetchFinal_allFail errs n now

/-- C1 witness: the test scenario, retry = 1 with attempts rejecting with
their index; two attempts, failure count 1 after the first failed attempt,
terminal error state carrying the last error with failure count 2. -/
theorem C1_unsuccessful_query_retry_witness :
    (retryerRun (fun i => (Except.error i : Except Nat Unit))
        (.num 1) 1).attempts = 2
    ∧ applyFails (fun i => i)
        (applyAction (initialQueryState (α := Unit) (ε := Nat)) .fetch) 1 =
        { applyAction (initialQueryState (α := Unit) (ε := Nat)) .fetch with
          fetchFailureCount := 1
          fetchFailureReason := some 0 }
    ∧ fetchFinal initialQueryState
        (retryerRun (fun i => (Except.error i : Except Nat Unit))
          (.num 1) 1) 7 =
        { initialQueryState (α := Unit) (ε := Nat) with
          status := .error
          error := some 1
          errorUpdateCount := 1
          errorUpdatedAt := 7
          fetchFailureCount := 2
          fetchFailureReason := some 1 } := by
  have h := C1_unsuccessful_query_retry Nat (fun i => i) 1 7
  exact ⟨h.1, h.2.2.2.1 1 (by decide) (by decide), h.2.2.2.2⟩

/-- Modelled from the spec (§4.2 Staleness): "staleTime may be a number
(ms), 'static' (never stale, never auto-refetched), or function of
Query"; the function form resolves to one of the other two before use and
is not modelled separately. -/
inductive StaleTime where
  | ms (t : Nat)
  | static
deriving Repr, DecidableEq

/-- Modelled from the spec (§4.2): "A Query is stale if
isInvalidated || Date.now() - dataUpdatedAt >= staleTime", a Query that
has never produced data is always stale (§4.4 mount policy fetches when
there is no data), and a 'static' Query with data is never stale —
"A static query ignores invalidation-driven refetches". -/
def isStaleByTime {α ε : Type} (s : QueryState α ε) (staleTime : StaleTime)
    (now : Nat) : Bool :=
  if s.data.isNone then true
  else
    match staleTime with
    | .static => false
    | .ms t => s.isInvalidated || decide (t ≤ now - s.dataUpdatedAt)

/-- Result of one fetchQuery call: the state the cache entry is left in,
the value the returned promise settles with (the cached data on a cache
hit), and how many times the query function was invoked by this call. -/
structure FetchQueryRun (α ε : Type) where
  state : QueryState α ε
  value : Except ε (Option α)
  calls : Nat
deriving Repr

/-- Modelled from the spec (§4.6 fetchQuery, §8 scenario 4): fetchQuery
builds the entry if absent and runs a fetch, except that when the cached
data is not stale by the given staleTime it resolves with the cached
value without invoking the query function (scenario 4: a second
fetchQuery with staleTime 'static' "returns the same value and calls the
function once"). -/
def fetchQuery {α ε : Type} (entry : Option (QueryState α ε))
    (fn : Except ε α) (staleTime : StaleTime) (now : Nat) :
    FetchQueryRun α ε :=
  let q := entry.getD initialQueryState
  if isStaleByTime q staleTime now then
    match fn with
    | .ok a =>
        ⟨applyAction (applyAction q .fetch) (.success a now false),
         .ok (some a), 1⟩
    | .error e =>
        ⟨applyAction (applyAction q .fetch) (.error e now), .error e, 1⟩
  else ⟨q, .ok q.data, 0⟩

/-- Modelled from the spec (§4.6): invalidateQueries "marks matching
queries invalidated, then refetchQueries(filters) with refetchType
policy"; with refetchType 'none' no refetch runs, so the effect on the
matched entry is the invalidate action alone. -/
def invalidateQueriesNone {α ε : Type} (s : QueryState α ε) :
    QueryState α ε :=
  applyAction s .invalidate

/-- C2: a query with staleTime 'static' that has succeeded once is never
refetched: the first fetchQuery on an empty entry invokes the function
once and caches its value; any later fetchQuery resolves with the cached
value at zero invocations and leaves the state unchanged, and the same
holds after invalidateQueries with refetchType 'none', which itself
triggers no fetch — so the query function runs exactly once overall. -/
theorem C2_static_stale_time_reads_cache (α ε : Type) (v : α) (t1 : Nat)
    (q : QueryState α ε) (d : α) (hd : q.data = some d) :
    fetchQuery (none : Option (QueryState α ε)) (.ok v) .static t1 =
      ⟨{ initialQueryState (α := α) (ε := ε) with
          data := some v
          dataUpdateCount := 1
          dataUpdatedAt := t1
          status := .success },
       .ok (some v), 1⟩
    ∧ (∀ (fn2 : Except ε α) (t2 : Nat),
        fetchQuery (some q) fn2 .static t2 = ⟨q, .ok (some d), 0⟩)
    ∧ (invalidateQueriesNone q).data = some d
    ∧ (∀ (fn2 : Except ε α) (t2 : Nat),
        fetchQuery (some (invalidateQueriesNone q)) fn2 .static t2 =
          ⟨invalidateQueriesNone q, .ok (some d), 0⟩) := by
  refine ⟨rfl, ?_, ?_, ?_⟩
  · intro fn2 t2
    simp [fetchQuery, isStaleByTime, hd]
  · simp [invalidateQueriesNone, applyAction, hd]
  · intro fn2 t2
    simp [fetchQuery, isStaleByTime, invalidateQueriesNone, applyAction, hd]

/-- C2 witness: a concrete run with value 5 cached at time 3 and a
subsequent invalidated read at time 9 via a function that would return
6 if it were invoked. -/
theorem C2_static_stale_time_reads_cache_witness :
    fetchQuery (none : Option (QueryState Nat Nat)) (.ok 5) .static 3 =
      ⟨{ initialQueryState (α := Nat) (ε := Nat) with
          data := some 5
          dataUpdateCount := 1
          dataUpdatedAt := 3
          status := .success },
       .ok (some 5), 1⟩
    ∧ fetchQuery
        (some (invalidateQueriesNone
          (fetchQuery (none : Option (QueryState Nat Nat))
            (.ok 5) .static 3).state))
        (.ok 6) .static 9 =
      ⟨invalidateQueriesNone
        (fetchQuery (none : Option (QueryState Nat Nat))
          (.ok 5) .static 3).state,
       .ok (some 5), 0⟩ := by
  have h := C2_static_stale_time_reads_cache Nat Nat 5 3
    (fetchQuery (none : Option (QueryState Nat Nat)) (.ok 5) .static 3).state
    5 (by decide)
  exact ⟨h.1, h.2.2.2 (.ok 6) 9⟩

/-- C10: fetchQuery with a numeric staleTime resolves from the cache,
without invoking the query function, while the cached data's age is below
the given staleTime; once the age reaches or exceeds it, the query
function is invoked again and the call resolves with the fresh value. -/
theorem C10_fetchQuery_respects_stale_time (α ε : Type)
    (q : QueryState α ε) (d v : α) (fn : Except ε α) (t now : Nat)
    (hd : q.data = some d) (hinv : q.isInvalidated = false) :
    (now - q.dataUpdatedAt < t →
      fetchQuery (some q) fn (.ms t) now = ⟨q, .ok (some d), 0⟩)
    ∧ (t ≤ now - q.dataUpdatedAt →
      fetchQuery (some q) (.ok v) (.ms t) now =
        ⟨applyAction (applyAction q .fetch) (.success v now false),
         .ok (some v), 1⟩) := by
  constructor
  · intro hage
    simp [fetchQuery, isStaleByTime, hd, hinv, Nat.not_le.mpr hage]
  · intro hage
    simp [fetchQuery, isStaleByTime, hd, hinv, hage]

/-- C10 witness: data written at time 0; at time 5 a fetchQuery with
staleTime 10 reads the cache without invoking the function, and at time
12 one with staleTime 10 invokes it and resolves with the fresh value. -/
theorem C10_fetchQuery_respects_stale_time_witness :
    fetchQuery
        (some { initialQueryState (α := Nat) (ε := Nat) with
                data := some 0
                dataUpdateCount := 1
                status := .success })
        (.ok 1) (.ms 10) 5 =
      ⟨{ initialQueryState (α := Nat) (ε := Nat) with
          data := some 0
          dataUpdateCount := 1
          status := .success },
       .ok (some 0), 0⟩
    ∧ fetchQuery
        (some { initialQueryState (α := Nat) (ε := Nat) with
                data := some 0
                dataUpdateCount := 1
                status := .success })
        (.ok 1) (.ms 10) 12 =
      ⟨applyAction
          (applyAction
            { initialQueryState (α := Nat) (ε := Nat) with
              data := some 0
              dataUpdateCount := 1
              status := .success } .fetch)
          (.success 1 12 false),
       .ok (some 1), 1⟩ := by
  constructor
  · exact (C10_fetchQuery_respects_stale_time Nat Nat
      { initialQueryState with
        data := some 0, dataUpdateCount := 1, status := .success }
      0 1 (.ok 1) 10 5 (by decide) (by decide)).1 (by decide)
  · exact (C10_fetchQuery_respects_stale_time Nat Nat
      { initialQueryState with
        data := some 0, dataUpdateCount := 1, status := .success }
      0 1 (.ok 1) 10 12 (by decide) (by decide)).2 (by decide)

/-- A Query with an in-flight fetch: the current state together with the
snapshot "captured before the fetch started" that a revert restores
(spec §5 Cancellation semantics). -/
structure FetchingQuery (α ε : Type) where
  state : QueryState α ε
  revertState : QueryState α ε
deriving Repr, DecidableEq

/-- Modelled from the spec (§4.2/§5): starting a fetch stores the current
state as the revert snapshot and dispatches the fetch action. -/
def startFetch {α ε : Type} (q : QueryState α ε) : FetchingQuery α ε :=
  ⟨applyAction q .fetch, q⟩

/-- Modelled from the spec (§4.6): "cancelQueries(filters,
\x7brevert?, silent?\x7d): cancels in-flight fetches; revert=true (default)
restores pre-fetch state"; with revert false the cancellation is surfaced
as an error state carrying the cancellation error. -/
def cancelQuery {α ε : Type} (fq : FetchingQuery α ε) (revert : Bool)
    (cancelError : ε) (now : Nat) : QueryState α ε :=
  if revert then fq.revertState
  else applyAction fq.state (.error cancelError now)

/-- C3: cancelling an in-flight fetch with revert true restores the exact
pre-fetch snapshot — a previously successful query returns to its prior
data and status success, a previously errored one to its prior error and
status error, and a never-completed query to status pending with
fetchStatus idle; with revert false the query ends in an error state. -/
theorem C3_cancel_queries_revert (α ε : Type) (q : QueryState α ε) (e : ε)
    (now : Nat) :
    cancelQuery (startFetch q) true e now = q
    ∧ (q.status = .success →
        (cancelQuery (startFetch q) true e now).status = .success
        ∧ (cancelQuery (startFetch q) true e now).data = q.data)
    ∧ (q.status = .error →
        (cancelQuery (startFetch q) true e now).status = .error
        ∧ (cancelQuery (startFetch q) true e now).error = q.error)
    ∧ (q = initialQueryState →
        (cancelQuery (startFetch q) true e now).status = .pending
        ∧ (cancelQuery (startFetch q) true e now).fetchStatus = .idle)
    ∧ (cancelQuery (startFetch q) false e now).status = .error
    ∧ (cancelQuery (startFetch q) false e now).error = some e := by
  refine ⟨rfl, ?_, ?_, ?_, ?_, ?_⟩
  · intro hs
    exact ⟨hs, rfl⟩
  · intro hs
    exact ⟨hs, rfl⟩
  · intro hq
    subst hq
    exact ⟨rfl, rfl⟩
  · simp [cancelQuery, applyAction]
  · simp [cancelQuery, applyAction]

/-- C3 witness: cancelling a fetch started over a previously successful
entry restores it; cancelling with revert false on a fresh entry leaves
an error state. -/
theorem C3_cancel_queries_revert_witness :
    cancelQuery
        (startFetch
          { initialQueryState (α := Nat) (ε := Nat) with
            data := some 4
            dataUpdateCount := 1
            status := .success }) true 9 20 =
      { initialQueryState (α := Nat) (ε := Nat) with
        data := some 4
        dataUpdateCount := 1
        status := .success }
    ∧ (cancelQuery
        (startFetch
          { initialQueryState (α := Nat) (ε := Nat) with
            data := some 4
            dataUpdateCount := 1
            status := .success }) true 9 20).status = .success
    ∧ (cancelQuery (startFetch (initialQueryState (α := Nat) (ε := Nat)))
        true 9 20).status = .pending
    ∧ (cancelQuery (startFetch (initialQueryState (α := Nat) (ε := Nat)))
        true 9 20).fetchStatus = .idle
    ∧ (cancelQuery (startFetch (initialQueryState (α := Nat) (ε := Nat)))
        false 9 20).status = .error := by
  have h1 := C3_cancel_queries_revert Nat Nat
    { initialQueryState (α := Nat) (ε := Nat) with
      data := some 4, dataUpdateCount := 1, status := .success } 9 20
  have h2 := C3_cancel_queries_revert Nat Nat initialQueryState 9 20
  exact ⟨h1.1, (h1.2.1 (by decide)).1, (h2.2.2.2.1 rfl).1,
    (h2.2.2.2.1 rfl).2, h2.2.2.2.2.1⟩

/-- Modelled from the spec (§4.6): "setQueryData(key, updater,
\x7bupdatedAt?\x7d): if updater returns undefined, no-op; otherwise writes
and updates dataUpdatedAt.  Does not change fetchStatus."  The write is a
manual success action (§4.2 setData with manual), and no new entry is
created when the updater returns undefined on a missing entry. -/
def setQueryData {α ε : Type} (entry : Option (QueryState α ε))
    (updater : Option α → Option α) (now : Nat) :
    Option (QueryState α ε) :=
  match updater (entry.bind (fun q => q.data)) with
  | none => entry
  | some d =>
      some (applyAction (entry.getD initialQueryState) (.success d now true))

/-- C9: setQueryData with an updater returning undefined is a no-op —
no entry is created for a missing key and an existing entry is left
unchanged; a successful write replaces the data, records the update time
and a success status, and leaves fetchStatus exactly as it was (an
in-flight fetch stays 'fetching'). -/
theorem C9_setQueryData_undefined_noop_keeps_fetchStatus (α ε : Type)
    (q : QueryState α ε) (u : Option α → Option α) (now : Nat) :
    (u none = none →
      setQueryData (none : Option (QueryState α ε)) u now = none)
    ∧ (u q.data = none → setQueryData (some q) u now = some q)
    ∧ (∀ d, u q.data = some d →
        setQueryData (some q) u now =
          some { q with
                  data := some d
                  dataUpdateCount := q.dataUpdateCount + 1
                  dataUpdatedAt := now
                  error := none
                  isInvalidated := false
                  status := .success })
    ∧ (∀ d s', u q.data = some d → setQueryData (some q) u now = some s' →
        s'.fetchStatus = q.fetchStatus) := by
  refine ⟨?_, ?_, ?_, ?_⟩
  · intro hu
    simp [setQueryData, hu]
  · intro hu
    simp [setQueryData, hu]
  · intro d hu
    simp [setQueryData, hu, applyAction]
  · intro d s' hu hs
    simp [setQueryData, hu, applyAction] at hs
    rw [← hs]

/-- C9 witness: on a key holding 7 while a fetch is in flight, an updater
returning none leaves the entry untouched, and a write of 42 keeps
fetchStatus at fetching. -/
theorem C9_setQueryData_undefined_noop_keeps_fetchStatus_witness :
    setQueryData (none : Option (QueryState Nat Nat))
        (fun _ => none) 5 = none
    ∧ setQueryData
        (some { initialQueryState (α := Nat) (ε := Nat) with
                data := some 7
                dataUpdateCount := 1
                status := .success
                fetchStatus := .fetching })
        (fun _ => none) 5 =
      some { initialQueryState (α := Nat) (ε := Nat) with
             data := some 7
             dataUpdateCount := 1
             status := .success
             fetchStatus := .fetching }
    ∧ setQueryData
        (some { initialQueryState (α := Nat) (ε := Nat) with
                data := some 7
                dataUpdateCount := 1
                status := .success
                fetchStatus := .fetching })
        (fun _ => some 42) 5 =
      some { initialQueryState (α := Nat) (ε := Nat) with
             data := some 42
             dataUpdateCount := 2
             dataUpdatedAt := 5
             status := .success
             fetchStatus := .fetching } := by
  have h1 := C9_setQueryData_undefined_noop_keeps_fetchStatus Nat Nat
    initialQueryState (fun _ => none) 5
  have h2 := C9_setQueryData_undefined_noop_keeps_fetchStatus Nat Nat
    { initialQueryState (α := Nat) (ε := Nat) with
      data := some 7, dataUpdateCount := 1, status := .success,
      fetchStatus := .fetching } (fun _ => none) 5
  have h3 := C9_setQueryData_undefined_noop_keeps_fetchStatus Nat Nat
    { initialQueryState (α := Nat) (ε := Nat) with
      data := some 7, dataUpdateCount := 1, status := .success,
      fetchStatus := .fetching } (fun _ => some 42) 5
  refine ⟨h1.1 rfl, h2.2.1 rfl, ?_⟩
  rw [h3.2.2.1 42 rfl]
  rfl

/-- Modelled from the spec (§4.4 Derived result): the observer-facing
derived result fields relevant to placeholder semantics. -/
structure ObserverResult (α : Type) where
  data : Option α
  status : QueryStatus
  isFetching : Bool
  isPlaceholderData : Bool
deriving Repr, DecidableEq

/-- Modelled from the spec (§4.4): createResult.  The data and status come
from the Query; "placeholderData: used when Query has no data", shown as
a success-shaped result, and "while placeholder is shown,
isPlaceholderData = true"; isFetching reflects fetchStatus = fetching. -/
def createResult {α ε : Type} (q : QueryState α ε)
    (placeholderData : Option α) : ObserverResult α :=
  match q.data with
  | some d => ⟨some d, q.status, decide (q.fetchStatus = .fetching), false⟩
  | none =>
      if q.status = .pending then
        match placeholderData with
        | some p => ⟨some p, .success, decide (q.fetchStatus = .fetching),
                     true⟩
        | none => ⟨none, q.status, decide (q.fetchStatus = .fetching), false⟩
      else ⟨none, q.status, decide (q.fetchStatus = .fetching), false⟩

/-- Modelled from the spec (§4.4 placeholderData, §6 keepPreviousData,
§8 scenario 3): an observer with placeholderData = keepPreviousData whose
key changes after the first key's fetch resolved with v0.  The first
entry fetches and resolves v0; the key change points the observer at a
fresh entry for the new key, whose fetch resolves v1; keepPreviousData
supplies the previous observer result's data as the placeholder.
Returns the observer result sequence and the successive data contents of
the new key's cache entry. -/
def keepPreviousDataScenario {α : Type} (v0 v1 : α) (t0 t1 : Nat) :
    List (ObserverResult α) × List (Option α) :=
  let q0fetching := applyAction (initialQueryState (α := α) (ε := Unit))
    .fetch
  let q0done := applyAction q0fetching (.success v0 t0 false)
  let r0 := createResult q0fetching none
  let r1 := createResult q0done none
  let q1fetching := applyAction (initialQueryState (α := α) (ε := Unit))
    .fetch
  let r2 := createResult q1fetching r1.data
  let q1done := applyAction q1fetching (.success v1 t1 false)
  let r3 := createResult q1done r1.data
  ([r0, r1, r2, r3],
   [(initialQueryState (α := α) (ε := Unit)).data, q1fetching.data,
    q1done.data])

/-- C4: with placeholderData = keepPreviousData, after the key changes
from a key resolved to v0 to a key that will resolve to v1, the observer
result sequence is: pending fetch with no data, then success v0, then —
while the new key fetches — data v0 with isFetching true and
isPlaceholderData true, then v1 with isPlaceholderData false once it
resolves; and the new key's cache entry only ever holds no data or v1,
never the previous key's v0. -/
theorem C4_keep_previous_data_placeholder (α : Type) (v0 v1 : α)
    (t0 t1 : Nat) :
    (keepPreviousDataScenario v0 v1 t0 t1).1 =
      [⟨none, .pending, true, false⟩,
       ⟨some v0, .success, false, false⟩,
       ⟨some v0, .success, true, true⟩,
       ⟨some v1, .success, false, false⟩]
    ∧ (keepPreviousDataScenario v0 v1 t0 t1).2 = [none, none, some v1] := by
  exact ⟨rfl, rfl⟩

/-- Memoised selection: the select function's identity, the raw data it
was applied to, and the computed outcome (spec §4.4 select
memoisation). -/
structure SelectMemo (α β ε : Type) where
  selectId : Nat
  raw : α
  value : Except ε β
deriving Repr

/-- The observer result when a select transform is configured: the
selected data, or the selection error presented with status error
(spec §4.4, §7 SelectFailure). -/
structure SelectedResult (β ε : Type) where
  data : Option β
  status : QueryStatus
  error : Option ε
deriving Repr, DecidableEq

/-- How a selection outcome is presented on the observer result: a
success keeps the Query's status; "if select throws, the selection error
replaces data with the error on the result (marked isError)". -/
def presentSelected {α β ε : Type} (q : QueryState α ε) :
    Except ε β → SelectedResult β ε
  | .ok b => ⟨some b, q.status, none⟩
  | .error e => ⟨none, .error, some e⟩

/-- Modelled from the spec (§4.4 select, §7 SelectFailure): one
derivation of the observer result under a select transform.  Select is
memoised: "if select identity and raw data are unchanged, previous
selected value is reused" — even a selection error is "cached until the
select identity or raw data changes" — otherwise select is invoked once
and its outcome stored.  The error is surfaced "without mutating the
Query", whose state is returned unchanged.  Returns the result, the new
memo, whether select was invoked, and the Query state afterwards. -/
def observerSelectStep {α β ε : Type} [DecidableEq α] (q : QueryState α ε)
    (selectId : Nat) (sel : α → Except ε β)
    (memo : Option (SelectMemo α β ε)) :
    SelectedResult β ε × Option (SelectMemo α β ε) × Bool ×
      QueryState α ε :=
  match q.data with
  | none => (⟨none, q.status, q.error⟩, memo, false, q)
  | some raw =>
      match memo with
      | some m =>
          if m.selectId = selectId ∧ m.raw = raw then
            (presentSelected q m.value, some m, false, q)
          else
            (presentSelected q (sel raw), some ⟨selectId, raw, sel raw⟩,
             true, q)
      | none =>
          (presentSelected q (sel raw), some ⟨selectId, raw, sel raw⟩,
           true, q)

/-- C8: when select throws, the observer result carries the thrown error
with status error while the Query state (and its cached raw data) is
returned unmodified; a re-render with the same select identity and the
same raw data does not invoke select again and reuses the cached error;
select runs again only once the raw data has changed. -/
theorem C8_select_error_cached (α β ε : Type) [DecidableEq α]
    (q q' : QueryState α ε) (raw raw' : α) (e : ε) (selectId : Nat)
    (sel : α → Except ε β)
    (hd : q.data = some raw) (hs : sel raw = .error e)
    (hd' : q'.data = some raw') (hne : raw' ≠ raw) :
    observerSelectStep q selectId sel none =
      (⟨none, .error, some e⟩, some ⟨selectId, raw, .error e⟩, true, q)
    ∧ observerSelectStep q selectId sel
        (some ⟨selectId, raw, .error e⟩) =
      (⟨none, .error, some e⟩, some ⟨selectId, raw, .error e⟩, false, q)
    ∧ observerSelectStep q' selectId sel
        (some ⟨selectId, raw, .error e⟩) =
      (presentSelected q' (sel raw'), some ⟨selectId, raw', sel raw'⟩,
       true, q') := by
  refine ⟨?_, ?_, ?_⟩
  · simp [observerSelectStep, hd, hs, presentSelected]
  · simp [observerSelectStep, hd, hs, presentSelected]
  · have hcond : ¬(raw = raw') := fun h => hne h.symm
    simp [observerSelectStep, hd', hcond]

/-- C8 witness: raw data 3 with a selector rejecting with 9: the first
derivation invokes the selector and presents the error, the second
derivation reuses it without invoking, and a refetch changing the raw
data to 4 invokes the selector again. -/
theorem C8_select_error_cached_witness :
    observerSelectStep
        { initialQueryState (α := Nat) (ε := Nat) with
          data := some 3, dataUpdateCount := 1, status := .success }
        0 (fun _ => (.error 9 : Except Nat Nat)) none =
      (⟨none, .error, some 9⟩, some ⟨0, 3, .error 9⟩, true,
       { initialQueryState (α := Nat) (ε := Nat) with
         data := some 3, dataUpdateCount := 1, status := .success })
    ∧ observerSelectStep
        { initialQueryState (α := Nat) (ε := Nat) with
          data := some 3, dataUpdateCount := 1, status := .success }
        0 (fun _ => (.error 9 : Except Nat Nat))
        (some ⟨0, 3, .error 9⟩) =
      (⟨none, .error, some 9⟩, some ⟨0, 3, .error 9⟩, false,
       { initialQueryState (α := Nat) (ε := Nat) with
         data := some 3, dataUpdateCount := 1, status := .success })
    ∧ (observerSelectStep
        { initialQueryState (α := Nat) (ε := Nat) with
          data := some 4, dataUpdateCount := 2, status := .success }
        0 (fun _ => (.error 9 : Except Nat Nat))
        (some ⟨0, 3, .error 9⟩)).2.2.1 = true := by
  have h := C8_select_error_cached Nat Nat Nat
    { initialQueryState (α := Nat) (ε := Nat) with
      data := some 3, dataUpdateCount := 1, status := .success }
    { initialQueryState (α := Nat) (ε := Nat) with
      data := some 4, dataUpdateCount := 2, status := .success }
    3 4 9 0 (fun _ => (.error 9 : Except Nat Nat))
    rfl rfl rfl (by decide)
  refine ⟨h.1, h.2.1, ?_⟩
  rw [h.2.2]

/-- Modelled from the spec (§3 Mutation entry):
`status ∈ \x7bidle, pending, success, error\x7d`. -/
inductive MutationStatus where
  | idle
  | pending
  | success
  | error
deriving Repr, DecidableEq

/-- Modelled from the spec (§3 Mutation entry): the mutation state record
`\x7b data, error, failureCount, failureReason, isPaused, status,
variables \x7d` (context and submittedAt are not needed by the claims
settled here). -/
structure MutationState (α β ε : Type) where
  data : Option α
  error : Option ε
  failureCount : Nat
  failureReason : Option ε
  isPaused : Bool
  status : MutationStatus
  vars : Option β
deriving Repr, DecidableEq

/-- Modelled from the spec: the state of a freshly created mutation,
status idle. -/
def initialMutationState {α β ε : Type} : MutationState α β ε where
  data := none
  error := none
  failureCount := 0
  failureReason := none
  isPaused := false
  status := .idle
  vars := none

/-- Modelled from the spec (§4.1 network modes, §4.5 lifecycle, §8
scenario 2): mutate while offline under the default networkMode 'online'
— the mutation advances to pending with its variables recorded, and
because the mode "requires online; pauses otherwise" the retryer pauses
before the first attempt: `isPaused` is true and the mutation function
has been called zero times.  Returns the state and the call count. -/
def mutateOffline {α β ε : Type} (vars : β) : MutationState α β ε × Nat :=
  ({ initialMutationState (α := α) (β := β) (ε := ε) with
      status := .pending
      isPaused := true
      vars := some vars }, 0)

/-- Modelled from the spec (§4.5, §4.1): resumePausedMutations continues
a paused mutation once online: the retryer emits `onContinue` (clearing
`isPaused`) and runs the mutation function under the retry policy; each
`onFail` is recorded in failureCount / failureReason, and the terminal
outcome is dispatched — success stores the data and resets the failure
counters, failure counts the final failed attempt and leaves
`status = error` with `isPaused = false` (invariant 1: pause toggles only
within pending).  Returns the final state and the number of mutation
function calls. -/
def resumePausedMutation {α β ε : Type} (m : MutationState α β ε)
    (fn : Nat → Except ε α) (p : RetryPolicy ε) (fuel : Nat) :
    MutationState α β ε × Nat :=
  let out := retryerRun fn p fuel
  let m0 := { m with isPaused := false }
  let m1 := out.failEvents.foldl
    (fun st fe => { st with failureCount := fe.1,
                            failureReason := some fe.2 }) m0
  match out.result with
  | .ok a =>
      ({ m1 with
          data := some a
          error := none
          failureCount := 0
          failureReason := none
          status := .success }, out.attempts)
  | .error e =>
      ({ m1 with
          error := some e
          failureCount := m1.failureCount + 1
          failureReason := some e
          status := .error }, out.attempts)

/-- C5: a mutation started while offline (networkMode 'online') whose
function always rejects, with retry 1: immediately after mutate the state
is pending with isPaused true and the function has been called zero
times; after going online and resuming, the function is called exactly
twice (initial attempt plus one retry) and the terminal state is status
error with isPaused false, carrying the last attempt's error. -/
theorem C5_offline_mutation_pause_resume (α β ε : Type) (errs : Nat → ε)
    (vars : β) :
    (mutateOffline (α := α) (ε := ε) vars).1.status = .pending
    ∧ (mutateOffline (α := α) (ε := ε) vars).1.isPaused = true
    ∧ (mutateOffline (α := α) (ε := ε) vars).2 = 0
    ∧ resumePausedMutation (mutateOffline (α := α) (ε := ε) vars).1
        (fun i => (Except.error (errs i) : Except ε α)) (.num 1) 1 =
      ({ (mutateOffline (α := α) (ε := ε) vars).1 with
          isPaused := false
          error := some (errs 1)
          failureCount := 2
          failureReason := some (errs 1)
          status := .error }, 2) := by
  refine ⟨rfl, rfl, rfl, ?_⟩
  unfold resumePausedMutation
  rw [retryerRun_allFail errs 1]
  rfl

/-- C6: the terminal state of a mutation — if the mutation function
succeeds but onSuccess (or, after it resolves, onSettled) returns a
rejected promise, the mutation ends in status error with that callback's
error; if the mutation function itself failed, the terminal error is the
original mutation-function error no matter how onError or onSettled
reject.  Modelled from the spec (§4.5, §7 LifecycleCallbackFailure) as
`mutationTerminal`. -/
def mutationTerminal {α ε : Type} (fnResult : Except ε α)
    (onSuccessErr onErrorErr onSettledErr : Option ε) :
    MutationStatus × Option ε × Option α :=
  match fnResult with
  | .ok a =>
      match onSuccessErr with
      | some e => (.error, some e, none)
      | none =>
          match onSettledErr with
          | some e => (.error, some e, none)
          | none => (.success, none, some a)
  | .error e =>
      match onErrorErr, onSettledErr with
      | _, _ => (.error, some e, none)

/-- C6: a rejecting onSuccess or onSettled after a successful mutation
function yields status error with the callback's error; a failed mutation
function yields status error with the original error regardless of
onError / onSettled rejections; with no callback rejection a successful
function yields success. -/
theorem C6_callback_errors (α ε : Type) (a : α) (e e1 e3 : ε)
    (onErrorErr : Option ε) :
    (∀ onSettledErr,
      mutationTerminal (.ok a) (some e1) onErrorErr onSettledErr =
        (.error, some e1, none))
    ∧ mutationTerminal (.ok a) none onErrorErr (some e3) =
        (.error, some e3, none)
    ∧ (∀ onSuccessErr onSettledErr,
      mutationTerminal (Except.error e : Except ε α) onSuccessErr
          onErrorErr onSettledErr =
        (.error, some e, none))
    ∧ mutationTerminal (.ok a) none onErrorErr none =
        (.success, none, some a) := by
  exact ⟨fun _ => rfl, rfl, fun _ _ => rfl, rfl⟩

/-- Modelled from the spec (§3 Mutation observers / §4.5 Per-mutate
callbacks): "callbacks supplied per-mutate call are held separately and
fire only for the most recent caller" — each mutate call replaces the
observer's stored per-call callbacks, so after issuing calls 0..n-1 the
observer holds those of call n-1. -/
def latestAfterIssuing (n : Nat) : Option Nat :=
  (List.range n).foldl (fun _ k => some k) none

/-- Modelled from the spec (§4.5): the settling mutations are walked in
order with their call index; when mutation i settles, the per-call
callbacks stored on the observer fire exactly when call i is still the
latest one. -/
def fireSettles {γ : Type} (latest : Option Nat) : Nat → List γ → List γ
  | _, [] => []
  | i, c :: cs =>
      (if latest = some i then [c] else []) ++ fireSettles latest (i + 1) cs

/-- Modelled from the spec (§4.5): a batch of mutate calls on a shared
observer, all issued before any settles (each entry of `calls` carries
that invocation's variables and result).  Observer-level (options)
callbacks fire once per invocation with its own variables and result;
per-call callbacks fire per `fireSettles` against the latest call. -/
def sharedObserverRun {γ : Type} (calls : List γ) : List γ × List γ :=
  (calls, fireSettles (latestAfterIssuing calls.length) 0 calls)

lemma latestAfterIssuing_succ (n : Nat) :
    latestAfterIssuing (n + 1) = some n := by
  unfold latestAfterIssuing
  rw [List.range_succ, List.foldl_append]
  rfl

lemma fireSettles_last {γ : Type} :
    ∀ (cs : List γ) (i : Nat) (h : cs ≠ []),
      fireSettles (some (i + cs.length - 1)) i cs = [cs.getLast h]
  | [], _, h => absurd rfl h
  | [c], i, _ => by simp [fireSettles]
  | c :: c' :: cs', i, _ => by
      have ih := fireSettles_last (c' :: cs') (i + 1) (by simp)
      rw [fireSettles]
      have hne : ¬(some (i + (c :: c' :: cs').length - 1) = some i) := by
        simp
      rw [if_neg hne]
      have harith : i + (c :: c' :: cs').length - 1 =
          (i + 1) + (c' :: cs').length - 1 := by
        simp
        omega
      rw [harith, ih]
      simp [List.getLast]

/-- C7: when mutate is invoked several times on a shared mutation
observer before the mutations settle, the observer-level callbacks fire
once per invocation, each with that invocation's variables and result,
while the per-call callbacks passed to mutate fire exactly once, only for
the latest invocation, with that invocation's variables and result. -/
theorem C7_mutate_callbacks_latest_only (γ : Type) (calls : List γ)
    (h : calls ≠ []) :
    sharedObserverRun calls = (calls, [calls.getLast h]) := by
  unfold sharedObserverRun
  obtain ⟨c, cs, rfl⟩ : ∃ c cs, calls = c :: cs := by
    cases calls with
    | nil => exact absurd rfl h
    | cons c cs => exact ⟨c, cs, rfl⟩
  rw [show (c :: cs).length = cs.length + 1 from rfl,
    latestAfterIssuing_succ]
  have := fireSettles_last (c :: cs) 0 h
  rw [show (0 : Nat) + (c :: cs).length - 1 = cs.length from by simp] at this
  rw [this]

/-- C7 witness: two mutate calls, variables 1 and 2 with results 10 and
20: the observer-level callbacks fire for both in order; the per-call
callbacks fire once, for the second call. -/
theorem C7_mutate_callbacks_latest_only_witness :
    sharedObserverRun [(1, 10), (2, 20)] =
      ([(1, 10), (2, 20)], [(2, 20)]) := by
  have h := C7_mutate_callbacks_latest_only (Nat × Nat) [(1, 10), (2, 20)]
    (by simp)
  exact h

end ReactQuery
